import Mathlib

/-!
Shallow embedding of the Local-Paperless-MCP metadata cache and tool
dispatcher (TypeScript sources: `cachedMetadata.ts`, `paperlessAPI.ts`,
`mcpOpenAPIBridge.ts`).

Remote HTTP interactions are modelled by passing each call's outcome
explicitly (`Except String α`): `.ok` is a resolved axios promise carrying the
parsed response body, `.error msg` is a rejected promise / thrown exception
whose `error.message` is `msg`.  JavaScript `Map<number, T>` objects are
modelled as association lists in insertion order; `undefined` is `Option.none`.
-/

set_option autoImplicit false

namespace PaperlessMCP

/-- Decidable equality for remote-call outcomes, so that concrete runs of the
model can be checked by `decide`. -/
instance {ε α : Type} [DecidableEq ε] [DecidableEq α] :
    DecidableEq (Except ε α) := fun a b =>
  match a, b with
  | .ok x, .ok y =>
      if h : x = y then .isTrue (by rw [h]) else .isFalse (by simp [h])
  | .error x, .error y =>
      if h : x = y then .isTrue (by rw [h]) else .isFalse (by simp [h])
  | .ok _, .error _ => .isFalse (by simp)
  | .error _, .ok _ => .isFalse (by simp)

/-- A metadata entity (Tag / Correspondent / DocumentType from the generated
Paperless schema).  All three kinds share the fields this system reads:
numeric server-assigned `id`, display `name`, and (tags only) an optional
`color`; `document_count` is informational.  A JS `undefined` field is
`none`. -/
structure Entity where
  id : Nat
  name : String
  color : Option String := none
  document_count : Option Nat := none
deriving Repr, DecidableEq

/-- A JS `Map<number, Entity>` in iteration (insertion) order. -/
abbrev EntityMap := List (Nat × Entity)

/-- `Map.prototype.get`. -/
def mapGet : EntityMap → Nat → Option Entity
  | [], _ => none
  | (k₀, v₀) :: rest, k => if k₀ = k then some v₀ else mapGet rest k

/-- `Map.prototype.set`: replaces the value at an existing key (keeping its
position in iteration order), otherwise appends the new pair at the end. -/
def mapSet : EntityMap → Nat → Entity → EntityMap
  | [], k, v => [(k, v)]
  | (k₀, v₀) :: rest, k, v =>
      if k₀ = k then (k, v) :: rest else (k₀, v₀) :: mapSet rest k v

/-- Whitespace stripped by `String.prototype.trim` (the ASCII part; the
names this system handles contain no exotic Unicode space separators). -/
def isJsWhitespace (ch : Char) : Bool :=
  ch = ' ' || ch = '\t' || ch = '\n' || ch = '\r' ||
    ch = Char.ofNat 11 || ch = Char.ofNat 12

/-- `trim`: drop leading and trailing whitespace. -/
def trimChars (l : List Char) : List Char :=
  ((l.dropWhile isJsWhitespace).reverse.dropWhile isJsWhitespace).reverse

/-- The name normalisation used by every name lookup:
`name.trim().toLowerCase()` (ASCII lowercasing). -/
def normName (s : String) : String :=
  String.mk ((trimChars s.toList).map Char.toLower)

/-- State of the `CachedMetadata` singleton: one `Map` per entity kind plus
the `lastUpdated` timestamp (`Date` abstracted to a `Nat` tick, `null` is
`none`).  The private constructor leaves all three maps empty. -/
structure CachedMetadata where
  tags : EntityMap := []
  correspondents : EntityMap := []
  documentTypes : EntityMap := []
  lastUpdated : Option Nat := none
deriving Repr, DecidableEq

/-- The freshly constructed (never-initialized) cache instance. -/
def CachedMetadata.empty : CachedMetadata := {}

/-! ### Cache lookups (`cachedMetadata.ts` lines 124-179) -/

/-- `getTagsByIds`: `undefined` for a missing/empty input list, otherwise the
entities found (`.map(get).filter(defined)` = `filterMap`), unknown ids
silently dropped. -/
def getTagsByIds (c : CachedMetadata) (ids : List Nat) :
    Option (List Entity) :=
  if ids.isEmpty then none
  else some (ids.filterMap (mapGet c.tags))

/-- `getCorrespondentById`. -/
def getCorrespondentById (c : CachedMetadata) (id : Nat) : Option Entity :=
  mapGet c.correspondents id

/-- `getDocumentTypeById`. -/
def getDocumentTypeById (c : CachedMetadata) (id : Nat) : Option Entity :=
  mapGet c.documentTypes id

/-- First entry of the map (in iteration order) whose normalised name equals
the normalised query name; `undefined` when no entry matches. -/
def getIDByName (entries : EntityMap) (name : String) : Option Nat :=
  (entries.find? (fun p => normName p.2.name == normName name)).map (·.1)

/-- `getTagIDByName`. -/
def getTagIDByName (c : CachedMetadata) (name : String) : Option Nat :=
  getIDByName c.tags name

/-- `getCorrespondentIDByName`. -/
def getCorrespondentIDByName (c : CachedMetadata) (name : String) :
    Option Nat :=
  getIDByName c.correspondents name

/-- `getDocumentTypeIDByName`. -/
def getDocumentTypeIDByName (c : CachedMetadata) (name : String) :
    Option Nat :=
  getIDByName c.documentTypes name

/-! ### Cache loading (`cachedMetadata.ts` lines 28-122) -/

/-- One `forEach` step of `loadTags`/`loadCorrespondents`/`loadDocumentTypes`:
`if (entity.id) map.set(entity.id, entity)` — the truthiness test skips an
entity whose id is `0` (or missing). -/
def insertEntity (m : EntityMap) (e : Entity) : EntityMap :=
  if e.id ≠ 0 then mapSet m e.id e else m

/-- The map built by `clear()` followed by the `forEach` insertion loop over
one listing response. -/
def buildFromListing (results : List Entity) : EntityMap :=
  results.foldl insertEntity []

/-- `loadTags` (and its two clones for correspondents and document types),
acting on one kind's map.  `fetch` is the outcome of the `listKindRaw()`
HTTP GET, carrying the `results` array of the paginated response.  The
source only clears and repopulates the map when `results.length > 0`; on a
fetch error it logs and rethrows, leaving the map untouched. -/
def loadKind (old : EntityMap) (fetch : Except String (List Entity)) :
    EntityMap × Except String Unit :=
  match fetch with
  | .error e => (old, .error e)
  | .ok results =>
      ((if results.length > 0 then buildFromListing results else old), .ok ())

/-- `true` iff the fetch outcome is a resolved promise. -/
def fetchOk {α : Type} : Except String α → Bool
  | .ok _ => true
  | .error _ => false

/-- `initialize(paperlessAPI)`.  The three loads are started together under
`Promise.all`; each one, when its own fetch resolves, applies its map
mutation regardless of the other two (a rejected `Promise.all` does not
cancel or roll back the sibling loads).  The combined promise rejects with
the error of a failing load; `lastUpdated` is set only when all three
resolved. -/
def initializeCache (c : CachedMetadata)
    (fetchTags fetchCorrespondents fetchDocumentTypes :
      Except String (List Entity))
    (now : Nat) : CachedMetadata × Except String Unit :=
  let (tags', rt) := loadKind c.tags fetchTags
  let (correspondents', rc) := loadKind c.correspondents fetchCorrespondents
  let (documentTypes', rd) := loadKind c.documentTypes fetchDocumentTypes
  let c' : CachedMetadata :=
    { c with
      tags := tags'
      correspondents := correspondents'
      documentTypes := documentTypes' }
  match rt, rc, rd with
  | .ok _, .ok _, .ok _ => ({ c' with lastUpdated := some now }, .ok ())
  | .error e, _, _ => (c', .error e)
  | _, .error e, _ => (c', .error e)
  | _, _, .error e => (c', .error e)

/-- `refreshTags`: re-runs `loadTags` on the tag map only, propagating a
load failure (the load logs and rethrows; `refreshTags` does not catch). -/
def refreshTags (c : CachedMetadata)
    (fetch : Except String (List Entity)) :
    CachedMetadata × Except String Unit :=
  let (m, r) := loadKind c.tags fetch
  ({ c with tags := m }, r)

/-- `refreshCorrespondents`. -/
def refreshCorrespondents (c : CachedMetadata)
    (fetch : Except String (List Entity)) :
    CachedMetadata × Except String Unit :=
  let (m, r) := loadKind c.correspondents fetch
  ({ c with correspondents := m }, r)

/-- `refreshDocumentTypes`. -/
def refreshDocumentTypes (c : CachedMetadata)
    (fetch : Except String (List Entity)) :
    CachedMetadata × Except String Unit :=
  let (m, r) := loadKind c.documentTypes fetch
  ({ c with documentTypes := m }, r)

/-! ### Result envelopes and text formatting (`paperlessAPI.ts`) -/

/-- The uniform MCP tool result: `{ isError?, content: [{type: "text", text}] }`.
Every envelope in this codebase has exactly one text content item, so the
content list is flattened to its single `text`. -/
structure Envelope where
  isError : Bool := false
  text : String
deriving Repr, DecidableEq

/-- JS string interpolation of a possibly-`undefined` string. -/
def jsShowOptString : Option String → String
  | some s => s
  | none => "undefined"

/-- JS string interpolation of a possibly-`undefined` number. -/
def jsShowOptNat : Option Nat → String
  | some n => toString n
  | none => "undefined"

/-- `formatTag`. -/
def formatTag (tag : Entity) : String :=
  "Tag ID: " ++ toString tag.id ++ ", Name: " ++ tag.name ++ ", Color: " ++
    jsShowOptString tag.color ++ ", Document with this Tag: " ++
    toString (tag.document_count.getD 0)

/-- `formatCorrespondent` (the source reuses the "Tag ID" wording). -/
def formatCorrespondent (correspondent : Entity) : String :=
  "Tag ID: " ++ toString correspondent.id ++ ", Name: " ++
    correspondent.name ++ ", Document with this Tag: " ++
    toString (correspondent.document_count.getD 0)

/-- `formatDocumentType`. -/
def formatDocumentType (documentType : Entity) : String :=
  "DocumentType ID: " ++ toString documentType.id ++ ", Name: " ++
    documentType.name ++ ", Document with this Tag: " ++
    toString (documentType.document_count.getD 0)

/-- Lowercase hex digit, for JSON control-character escapes. -/
def hexDigit (n : Nat) : Char :=
  if n < 10 then Char.ofNat (48 + n) else Char.ofNat (87 + n)

/-- `JSON.stringify` escaping of one character. -/
def jsonEscapeChar (c : Char) : String :=
  if c = '"' then "\\\""
  else if c = '\\' then "\\\\"
  else if c = '\n' then "\\n"
  else if c = '\r' then "\\r"
  else if c = '\t' then "\\t"
  else if c = Char.ofNat 8 then "\\b"
  else if c = Char.ofNat 12 then "\\f"
  else if c.toNat < 32 then
    "\\u00" ++ String.singleton (hexDigit (c.toNat / 16)) ++
      String.singleton (hexDigit (c.toNat % 16))
  else String.singleton c

/-- A JSON string literal for `s`. -/
def jsonQuote (s : String) : String :=
  "\"" ++ String.join (s.toList.map jsonEscapeChar) ++ "\""

/-- `JSON.stringify(ss, null, 2)` for an array of strings whose elements are
indented by `pad` and whose closing bracket is indented by `close` (both
empty-string based at top level). -/
def jsonStringifyStringArray (pad close : String) (ss : List String) :
    String :=
  match ss with
  | [] => "[]"
  | _ =>
      "[\n" ++ String.intercalate ",\n" (ss.map (fun s => pad ++ jsonQuote s))
        ++ "\n" ++ close ++ "]"

/-- The fields of a Paperless `Document` that this system reads.  `undefined`
or `null` remote fields are `none`. -/
structure Document where
  id : Nat
  title : String
  content : String
  tags : List Nat
  correspondent : Option Nat := none
  document_type : Option Nat := none
  created_date : Option String := none
  archived_file_name : Option String := none
  owner : Option Nat := none
  notes : Option (List String) := none
deriving Repr, DecidableEq

/-- `formatDocument`: the template literal of `paperlessAPI.ts` lines 49-51,
including its mix of `\n` escapes and literal line breaks with 4-space
continuation indents.  `x || "N/A"` renders `undefined` and the empty
string as `N/A`; an array interpolates as its comma-joined elements. -/
def formatDocument (c : CachedMetadata) (doc : Document) : String :=
  let tagsStr :=
    match getTagsByIds c doc.tags with
    | none => "N/A"
    | some l =>
        let j := String.intercalate ", " (l.map (·.name))
        if j = "" then "N/A" else j
  let correspondentStr :=
    match (match doc.correspondent with
           | some i => getCorrespondentById c i
           | none => none) with
    | some e => if e.name = "" then "N/A" else e.name
    | none => "N/A"
  let documentTypeStr :=
    match (match doc.document_type with
           | some i => getDocumentTypeById c i
           | none => none) with
    | some e => if e.name = "" then "N/A" else e.name
    | none => "N/A"
  let notesStr :=
    match doc.notes with
    | some l => String.intercalate "," l
    | none => "N/A"
  "Title: " ++ doc.title ++ " ID: " ++ toString doc.id ++
    " \n  Content: " ++ doc.content ++ "... \n  Tags: " ++ tagsStr ++
    "\n\n    Correspondent: " ++ correspondentStr ++
    " \n  Document Type: " ++ documentTypeStr ++
    " \n created_date: " ++ jsShowOptString doc.created_date ++
    " \n\n    Archived File Name: " ++
    jsShowOptString doc.archived_file_name ++
    " \n  Owner: " ++ jsShowOptNat doc.owner ++
    " \n  Notes: " ++ notesStr

/-- `parseDocumentData`: wraps the formatted documents in the
`DocumentSearchResult` JSON (`total` is `results.length`). -/
def parseDocumentData (c : CachedMetadata) (results : List Document) :
    Envelope :=
  { text :=
      "\x7b\n  \"total\": " ++ toString results.length ++
        ",\n  \"documents\": " ++
        jsonStringifyStringArray "    " "  " (results.map (formatDocument c))
        ++ "\n\x7d" }

/-- `listTags`: formats the raw listing, or catches the fetch error into an
error envelope. -/
def listTags (fetch : Except String (List Entity)) : Envelope :=
  match fetch with
  | .ok results =>
      { text := jsonStringifyStringArray "  " "" (results.map formatTag) }
  | .error msg => { isError := true, text := "Error: " ++ msg }

/-- `listCorrespondents`. -/
def listCorrespondents (fetch : Except String (List Entity)) : Envelope :=
  match fetch with
  | .ok results =>
      { text :=
          jsonStringifyStringArray "  " "" (results.map formatCorrespondent) }
  | .error msg => { isError := true, text := "Error: " ++ msg }

/-- `listDocumentTypes`. -/
def listDocumentTypes (fetch : Except String (List Entity)) : Envelope :=
  match fetch with
  | .ok results =>
      { text :=
          jsonStringifyStringArray "  " "" (results.map formatDocumentType) }
  | .error msg => { isError := true, text := "Error: " ++ msg }

/-! ### `get_documents` (`paperlessAPI.ts` lines 74-163) -/

/-- The (already type-checked) argument object of `get_documents`.  A key
absent from the JSON argument bag is `none`. -/
structure GetDocArgs where
  id : Option Nat := none
  content__icontains : Option String := none
  title : Option String := none
  tag : Option String := none
  correspondent : Option String := none
  created__date__gte : Option String := none
  created__date__lte : Option String := none
  document_type : Option String := none
  limit : Option Nat := none
deriving Repr, DecidableEq

/-- The query parameters of the outgoing `GET /api/documents/` request.
A filter the code did not add is `none`. -/
structure DocQueryParams where
  page_size : Nat
  id : Option Nat := none
  content__icontains : Option String := none
  title__icontains : Option String := none
  tags__name__icontains : Option String := none
  correspondent__name__icontains : Option String := none
  created__date__gte : Option String := none
  created__date__lte : Option String := none
  document_type__name__icontains : Option String := none
deriving Repr, DecidableEq

/-- `if (x) params.k = x` for an optional number: `0` and `undefined` are
falsy, so no parameter is added for them. -/
def natTruthy : Option Nat → Option Nat
  | some n => if n ≠ 0 then some n else none
  | none => none

/-- `if (x) params.k = x` for an optional string: `""` and `undefined` are
falsy, so no parameter is added for them. -/
def strTruthy : Option String → Option String
  | some s => if s ≠ "" then some s else none
  | none => none

/-- The `params` object built by `getDocumentAllParams` (destructuring
default `limit = 10`; each filter added only if truthy). -/
def getDocumentParams (args : GetDocArgs) : DocQueryParams :=
  { page_size := args.limit.getD 10
    id := natTruthy args.id
    content__icontains := strTruthy args.content__icontains
    title__icontains := strTruthy args.title
    tags__name__icontains := strTruthy args.tag
    correspondent__name__icontains := strTruthy args.correspondent
    created__date__gte := strTruthy args.created__date__gte
    created__date__lte := strTruthy args.created__date__lte
    document_type__name__icontains := strTruthy args.document_type }

/-- `getDocumentAllParams`: builds the query parameters, issues the GET
(whose outcome is `fetch`), and returns the formatted result or catches the
error into an error envelope.  The returned params are the issued request's
query string in either case. -/
def getDocumentAllParams (c : CachedMetadata) (args : GetDocArgs)
    (fetch : Except String (List Document)) : DocQueryParams × Envelope :=
  let params := getDocumentParams args
  match fetch with
  | .ok results => (params, parseDocumentData c results)
  | .error msg => (params, { isError := true, text := "Error: " ++ msg })

/-! ### `edit_documents` (`paperlessAPI.ts` lines 297-439) -/

/-- `MethodEnum` of the bulk-edit request (the subset this system accepts). -/
inductive MethodEnum where
  | set_correspondent
  | set_document_type
  | modify_tags
  | delete
deriving Repr, DecidableEq

/-- A JSON value placed into the loosely-typed `parameters` object of the
bulk-edit body: the generated schema type does not constrain it, so the
code may put either a number or a string there. -/
inductive ParamValue where
  | num (n : Nat)
  | str (s : String)
deriving Repr, DecidableEq

/-- The `parameters` object of the outgoing bulk-edit body. -/
structure BulkEditParameters where
  correspondent : Option ParamValue := none
  document_type : Option ParamValue := none
  add_tags : Option (List Nat) := none
  remove_tags : Option (List Nat) := none
deriving Repr, DecidableEq

/-- The outgoing `POST /api/documents/bulk_edit/` body. -/
structure BulkEditRequest where
  documents : List Nat
  method : MethodEnum
  parameters : BulkEditParameters
deriving Repr, DecidableEq

/-- The (already type-checked) argument object of `edit_documents`. -/
structure BulkEditArgs where
  documentIds : List Nat := []
  method : MethodEnum := .delete
  correspondent : Option String := none
  document_type : Option String := none
  add_tags : Option (List String) := none
  remove_tags : Option (List String) := none
deriving Repr, DecidableEq

/-- `bulkEditDocuments`.  Returns the issued POST body (`none` when the call
errored out before posting) together with the result envelope.  `post` is
the outcome of the POST, carrying the `result` field of `BulkEditResult`.

Source fidelity notes:
* `set_correspondent` resolves `correspondentId` from the cache but then, in
  the truthy branch, assigns the *name string* `correspondent` into
  `requestBody.parameters.correspondent` — the resolved id is never used;
  likewise for `set_document_type`.  The model reproduces this.
* the truthiness test `if (correspondentId)` sends id `0` and `undefined`
  down the same "not found" branch.
* `modify_tags` drops unresolvable names without error and always sets both
  lists (empty when the argument is absent). -/
def bulkEditDocuments (c : CachedMetadata) (args : BulkEditArgs)
    (post : Except String String) : Option BulkEditRequest × Envelope :=
  let params? : Except Envelope BulkEditParameters :=
    match args.method with
    | .set_correspondent =>
        match args.correspondent with
        | some correspondent =>
            match getCorrespondentIDByName c correspondent with
            | some correspondentId =>
                if correspondentId ≠ 0 then
                  .ok { correspondent := some (.str correspondent) }
                else
                  .error { isError := true
                           text := "Correspondent \"" ++ correspondent ++
                             "\" not found." }
            | none =>
                .error { isError := true
                         text := "Correspondent \"" ++ correspondent ++
                           "\" not found." }
        | none => .ok {}
    | .set_document_type =>
        match args.document_type with
        | some document_type =>
            match getDocumentTypeIDByName c document_type with
            | some documentTypeId =>
                if documentTypeId ≠ 0 then
                  .ok { document_type := some (.str document_type) }
                else
                  .error { isError := true
                           text := "Document Type \"" ++ document_type ++
                             "\" not found." }
            | none =>
                .error { isError := true
                         text := "Document Type \"" ++ document_type ++
                           "\" not found." }
        | none => .ok {}
    | .modify_tags =>
        let addIds :=
          match args.add_tags with
          | some add_tags => add_tags.filterMap (getTagIDByName c)
          | none => []
        let removeIds :=
          match args.remove_tags with
          | some remove_tags => remove_tags.filterMap (getTagIDByName c)
          | none => []
        .ok { add_tags := some addIds, remove_tags := some removeIds }
    | .delete => .ok {}
  match params? with
  | .error env => (none, env)
  | .ok parameters =>
      let requestBody : BulkEditRequest :=
        { documents := args.documentIds
          method := args.method
          parameters := parameters }
      match post with
      | .ok result =>
          (some requestBody,
           { text := "edit completed successfully: " ++ result })
      | .error msg =>
          (some requestBody, { isError := true, text := "Error: " ++ msg })

/-! ### Create calls (`paperlessAPI.ts` lines 441-567) -/

/-- `createCorrespondent`: all errors are caught into an error envelope. -/
def createCorrespondent (_name : String) (post : Except String Entity) :
    Envelope :=
  match post with
  | .ok data =>
      { text := "Correspondent created successfully: " ++
          formatCorrespondent data }
  | .error msg =>
      { isError := true, text := "Error creating correspondent: " ++ msg }

/-- `createDocumentType`. -/
def createDocumentType (_name : String) (post : Except String Entity) :
    Envelope :=
  match post with
  | .ok data =>
      { text := "Document Type created successfully: " ++
          formatDocumentType data }
  | .error msg =>
      { isError := true, text := "Error creating document type: " ++ msg }

/-- `createTag` (the `color`, when given, goes into the POST body only). -/
def createTag (_name : String) (_color : Option String)
    (post : Except String Entity) : Envelope :=
  match post with
  | .ok data =>
      { text := "Tag created successfully: " ++ formatTag data }
  | .error msg =>
      { isError := true, text := "Error creating tag: " ++ msg }

/-! ### Tool schemas and dispatch (`mcpOpenAPIBridge.ts`) -/

/-- The `.refine` failure message of `getDocumentSchema` (source lines
166-170). -/
def getDocumentSchemaRefineMsg : String :=
  "At least one parameter (id, content__icontains, title, tag, correspondent, created__date__gte, created__date__lte, document_type__name__icontains) must be provided"

/-- `getDocumentSchema.parse` on an already type-correct argument object:
`id` must satisfy `z.int().min(1)`, and the `.refine` demands at least one
of the eight filter keys be present.  A failure is the thrown `ZodError`
(only the violated rule is modelled, not zod's exact message text). -/
def getDocumentSchemaCheck (a : GetDocArgs) : Except String GetDocArgs :=
  if a.id.any (fun i => i < 1) then
    .error "id: number must be greater than or equal to 1"
  else if a.id.isNone && a.content__icontains.isNone && a.title.isNone &&
      a.tag.isNone && a.correspondent.isNone &&
      a.created__date__gte.isNone && a.created__date__lte.isNone &&
      a.document_type.isNone then
    .error getDocumentSchemaRefineMsg
  else .ok a

/-- `bulkEditSchema.parse` on an already type-correct argument object:
`documentIds` is `z.array(z.int().min(1))`; the method enum and the string
fields are enforced by the types of `BulkEditArgs`. -/
def bulkEditSchemaCheck (a : BulkEditArgs) : Except String BulkEditArgs :=
  if a.documentIds.all (fun i => 1 ≤ i) then .ok a
  else .error "documentIds: number must be greater than or equal to 1"

/-- The `createTagSchema` color rule: `z.string().max(7)` plus the regex
`#(?:[0-9a-fA-F]{3}){1,2}` anchored on both sides — `#` followed by exactly
3 or 6 hex digits. -/
def isHexColor (s : String) : Bool :=
  s.length ≤ 7 && s.startsWith "#" && (s.length = 4 || s.length = 7) &&
    (s.drop 1).toList.all
      (fun ch =>
        ch.isDigit || ('a' ≤ ch && ch ≤ 'f') || ('A' ≤ ch && ch ≤ 'F'))

/-- `createTagSchema.parse`: `name` is any string, `color` optional but
hex-validated when present. -/
def createTagSchemaCheck (name : String) (color : Option String) :
    Except String (String × Option String) :=
  match color with
  | some col =>
      if isHexColor col then .ok (name, some col)
      else .error "color: invalid hex color"
  | none => .ok (name, none)

/-- The typed argument bags a tool-call request may carry, one field per
schema (the dispatcher reads only the field of the tool it routes to). -/
structure RequestArgs where
  getDocs : GetDocArgs := {}
  bulkEdit : BulkEditArgs := {}
  createName : String := ""
  createColor : Option String := none
deriving Repr, DecidableEq

/-- Outcomes of every remote interaction a single dispatch may perform.
`refreshListing` is the listing fetched by the post-create cache refresh. -/
structure RemoteOutcomes where
  tagListing : Except String (List Entity) := .ok []
  correspondentListing : Except String (List Entity) := .ok []
  documentTypeListing : Except String (List Entity) := .ok []
  documentListing : Except String (List Document) := .ok []
  bulkEditPost : Except String String := .ok ""
  createCorrespondentPost : Except String Entity := .ok { id := 1, name := "" }
  createDocumentTypePost : Except String Entity := .ok { id := 1, name := "" }
  createTagPost : Except String Entity := .ok { id := 1, name := "" }
  refreshListing : Except String (List Entity) := .ok []
deriving Repr

/-- An HTTP request issued to the remote Paperless service during one
dispatch, in issue order. -/
inductive IssuedRequest where
  | getTags
  | getCorrespondents
  | getDocumentTypes
  | getDocuments (params : DocQueryParams)
  | postBulkEdit (body : BulkEditRequest)
  | postCreateCorrespondent (name : String)
  | postCreateDocumentType (name : String)
  | postCreateTag (name : String) (color : Option String)
deriving Repr, DecidableEq

/-- How one tool call ends, as seen at the MCP server boundary:
* `env`: the handler returned a result envelope (possibly error-flagged);
* `jsonrpcErr`: the handler returned the literal JSON-RPC error object of
  the `default` switch branch (unknown tool);
* `zodErr`: a `ZodError` thrown by `schema.parse` escaped the handler;
* `thrown`: any other exception escaped the handler (in this code: only the
  rethrown post-create refresh failure). -/
inductive CallOutcome where
  | env (e : Envelope)
  | jsonrpcErr (code : Int) (msg : String)
  | zodErr (msg : String)
  | thrown (msg : String)
deriving Repr, DecidableEq

/-- The full observable effect of one dispatched tool call. -/
structure CallResult where
  cache : CachedMetadata
  issued : List IssuedRequest
  outcome : CallOutcome
deriving Repr, DecidableEq

/-- The tool names declared by the `ListToolsRequestSchema` handler. -/
def declaredToolNames : List String :=
  ["list_tags", "list_correspondents", "list_document_types",
   "get_documents", "edit_documents", "create_correspondent",
   "create_document_type", "create_tag"]

/-- The `CallToolRequestSchema` handler installed by `setupMCPHandlers`
(source lines 350-424): a switch on the request's tool name.
`create_correspondent`/`create_document_type` have a name-only schema that
cannot fail on a typed argument, so no check appears for them. -/
def callToolHandler (c : CachedMetadata) (name : String) (args : RequestArgs)
    (remote : RemoteOutcomes) : CallResult :=
  if name = "list_tags" then
    { cache := c, issued := [.getTags]
      outcome := .env (listTags remote.tagListing) }
  else if name = "list_correspondents" then
    { cache := c, issued := [.getCorrespondents]
      outcome := .env (listCorrespondents remote.correspondentListing) }
  else if name = "list_document_types" then
    { cache := c, issued := [.getDocumentTypes]
      outcome := .env (listDocumentTypes remote.documentTypeListing) }
  else if name = "get_documents" then
    match getDocumentSchemaCheck args.getDocs with
    | .error m => { cache := c, issued := [], outcome := .zodErr m }
    | .ok a =>
        let (params, env) := getDocumentAllParams c a remote.documentListing
        { cache := c, issued := [.getDocuments params], outcome := .env env }
  else if name = "edit_documents" then
    match bulkEditSchemaCheck args.bulkEdit with
    | .error m => { cache := c, issued := [], outcome := .zodErr m }
    | .ok a =>
        let (req?, env) := bulkEditDocuments c a remote.bulkEditPost
        { cache := c
          issued := match req? with | some b => [.postBulkEdit b] | none => []
          outcome := .env env }
  else if name = "create_correspondent" then
    let result :=
      createCorrespondent args.createName remote.createCorrespondentPost
    let (c', r) := refreshCorrespondents c remote.refreshListing
    { cache := c'
      issued := [.postCreateCorrespondent args.createName, .getCorrespondents]
      outcome := match r with | .error e => .thrown e | .ok _ => .env result }
  else if name = "create_document_type" then
    let result :=
      createDocumentType args.createName remote.createDocumentTypePost
    let (c', r) := refreshDocumentTypes c remote.refreshListing
    { cache := c'
      issued := [.postCreateDocumentType args.createName, .getDocumentTypes]
      outcome := match r with | .error e => .thrown e | .ok _ => .env result }
  else if name = "create_tag" then
    match createTagSchemaCheck args.createName args.createColor with
    | .error m => { cache := c, issued := [], outcome := .zodErr m }
    | .ok _ =>
        let result :=
          createTag args.createName args.createColor remote.createTagPost
        let (c', r) := refreshTags c remote.refreshListing
        { cache := c'
          issued := [.postCreateTag args.createName args.createColor, .getTags]
          outcome :=
            match r with | .error e => .thrown e | .ok _ => .env result }
  else
    { cache := c, issued := []
      outcome := .jsonrpcErr (-32602) "Unknown tool: invalid_tool_name" }

/-! ### Helper lemmas about the map model -/

theorem mapGet_mapSet (m : EntityMap) (k : Nat) (v : Entity) (k' : Nat) :
    mapGet (mapSet m k v) k' = if k = k' then some v else mapGet m k' := by
  induction m with
  | nil =>
      by_cases h : k = k' <;> simp [mapSet, mapGet, h]
  | cons p rest ih =>
      obtain ⟨k₀, v₀⟩ := p
      by_cases h₀ : k₀ = k
      · subst h₀
        by_cases h' : k₀ = k' <;> simp [mapSet, mapGet, h']
      · by_cases h' : k₀ = k' <;> by_cases h'' : k = k' <;>
          simp_all [mapSet, mapGet]

theorem mapGet_foldl_insert_sound (rs : List Entity) (m : EntityMap)
    (k : Nat) (v : Entity)
    (h : mapGet (rs.foldl insertEntity m) k = some v) :
    (v ∈ rs ∧ v.id = k ∧ k ≠ 0) ∨ mapGet m k = some v := by
  induction rs generalizing m with
  | nil => exact .inr h
  | cons e rest ih =>
      rcases ih (insertEntity m e) h with hrest | hstep
      · exact .inl ⟨List.mem_cons_of_mem _ hrest.1, hrest.2⟩
      · by_cases he : e.id = 0
        · rw [insertEntity, if_neg (by simp [he])] at hstep
          exact .inr hstep
        · rw [insertEntity, if_pos he, mapGet_mapSet] at hstep
          by_cases hk : e.id = k
          · rw [if_pos hk] at hstep
            obtain rfl : e = v := Option.some_inj.mp hstep
            exact .inl ⟨List.mem_cons_self _ _, hk, hk ▸ he⟩
          · rw [if_neg hk] at hstep
            exact .inr hstep

theorem mapGet_foldl_insert_mono (rs : List Entity) (m : EntityMap)
    (k : Nat) (h : (mapGet m k).isSome) :
    (mapGet (rs.foldl insertEntity m) k).isSome := by
  induction rs generalizing m with
  | nil => exact h
  | cons e rest ih =>
      refine ih (insertEntity m e) ?_
      rw [insertEntity]
      split
      · rw [mapGet_mapSet]
        split <;> simp_all
      · exact h

theorem mapGet_foldl_insert_complete (rs : List Entity) (m : EntityMap)
    (e : Entity) (hmem : e ∈ rs) (hid : e.id ≠ 0) :
    (mapGet (rs.foldl insertEntity m) e.id).isSome := by
  induction rs generalizing m with
  | nil => cases hmem
  | cons e₀ rest ih =>
      rcases List.mem_cons.mp hmem with rfl | hrest
      · refine mapGet_foldl_insert_mono rest (insertEntity m e) e.id ?_
        rw [insertEntity, if_pos hid, mapGet_mapSet, if_pos rfl]
        rfl
      · exact ih (insertEntity m e₀) hrest

theorem getIDByName_eq_none (entries : EntityMap) (name : String)
    (h : ∀ p ∈ entries, normName p.2.name ≠ normName name) :
    getIDByName entries name = none := by
  rw [getIDByName, Option.map_eq_none', List.find?_eq_none]
  intro p hp
  simpa using h p hp

/-! ### Claim C2 -/

/-- Claim C2, counterexample: starting from the never-initialized cache, an
`initialize()` run whose tag and document-type fetches succeed (non-empty)
while the correspondent fetch fails does surface the failure, but leaves
the tag and document-type mappings populated from the partially completed
run — the cache state is not "as it was before the call". -/
theorem c2_counterexample_partial_population_on_failure :
    initializeCache CachedMetadata.empty
        (.ok [{ id := 1, name := "Invoice" }]) (.error "network error")
        (.ok [{ id := 2, name := "Utility" }]) 0 =
      ({ tags := [(1, { id := 1, name := "Invoice" })]
         correspondents := []
         documentTypes := [(2, { id := 2, name := "Utility" })] },
       .error "network error") ∧
    [(1, ({ id := 1, name := "Invoice" } : Entity))] ≠
      CachedMetadata.empty.tags := by
  decide

/-- Claim C2 as amended: if any of the three concurrent listing fetches
fails, `initialize()` reports the failure to the caller (it succeeds
exactly when all three fetches succeed), but it is not all-or-nothing: each
kind's mapping is updated from that kind's own fetch exactly as the
corresponding load would update it, regardless of the other two fetches,
so a kind whose fetch succeeded with a non-empty listing stays populated
from the failed run; `lastUpdated` is set only when all three succeed. -/
theorem c2_initialize_reports_failure_but_installs_per_kind_loads
    (c : CachedMetadata) (ft fc fd : Except String (List Entity))
    (now : Nat) :
    (initializeCache c ft fc fd now).1.tags = (loadKind c.tags ft).1 ∧
    (initializeCache c ft fc fd now).1.correspondents =
      (loadKind c.correspondents fc).1 ∧
    (initializeCache c ft fc fd now).1.documentTypes =
      (loadKind c.documentTypes fd).1 ∧
    fetchOk (initializeCache c ft fc fd now).2 =
      (fetchOk ft && fetchOk fc && fetchOk fd) ∧
    (initializeCache c ft fc fd now).1.lastUpdated =
      (if fetchOk ft && fetchOk fc && fetchOk fd then some now
       else c.lastUpdated) := by
  cases ft <;> cases fc <;> cases fd <;>
    simp [initializeCache, loadKind, fetchOk]

/-! ### Claim C8 -/

/-- Claim C8, counterexample: a tag refresh whose listing fetch succeeds but
returns the empty listing does NOT replace the mapping — the entry from the
earlier snapshot survives, because the load only clears and repopulates the
map when `results.length > 0`. -/
theorem c8_counterexample_empty_listing_preserves_old_snapshot :
    refreshTags { tags := [(1, { id := 1, name := "Invoice" })] }
        (.ok []) =
      ({ tags := [(1, { id := 1, name := "Invoice" })] }, .ok ()) ∧
    [(1, ({ id := 1, name := "Invoice" } : Entity))] ≠ ([] : EntityMap) := by
  decide

/-- Claim C8 as amended: after a successful load or single-kind refresh with
a NON-empty listing, the kind's mapping is rebuilt solely from that one
listing (independently of the previous mapping): every entry of the new
mapping is an entity of the listing keyed by its non-zero id, and every
listing entity with a non-zero id is present.  A successful fetch returning
an EMPTY listing, however, leaves the previous mapping untouched. -/
theorem c8_nonempty_listing_replaces_mapping
    (c : CachedMetadata) (old : EntityMap) (results : List Entity) :
    (results ≠ [] →
      (refreshTags c (.ok results)).1.tags = buildFromListing results) ∧
    (results ≠ [] →
      (loadKind old (.ok results)).1 = buildFromListing results) ∧
    (∀ k v, mapGet (buildFromListing results) k = some v →
      v ∈ results ∧ v.id = k ∧ k ≠ 0) ∧
    (∀ e ∈ results, e.id ≠ 0 →
      (mapGet (buildFromListing results) e.id).isSome) ∧
    (refreshTags c (.ok [])).1.tags = c.tags := by
  refine ⟨?_, ?_, ?_, ?_, ?_⟩
  · intro h
    simp [refreshTags, loadKind, List.length_pos.mpr h]
  · intro h
    simp [loadKind, List.length_pos.mpr h]
  · intro k v h
    rcases mapGet_foldl_insert_sound results [] k v h with h' | h'
    · exact h'
    · simp [mapGet] at h'
  · intro e hm hid
    exact mapGet_foldl_insert_complete results [] e hm hid
  · simp [refreshTags, loadKind]

/-- Witness for the amended C8 theorem at a concrete refresh: old snapshot
`{9: Old}`, new listing `[Invoice(1), Receipt(2)]`. -/
theorem c8_nonempty_listing_replaces_mapping_witness :
    ((refreshTags { tags := [(9, { id := 9, name := "Old" })] }
        (.ok [{ id := 1, name := "Invoice" },
              { id := 2, name := "Receipt" }])).1.tags =
      buildFromListing [{ id := 1, name := "Invoice" },
                        { id := 2, name := "Receipt" }]) ∧
    (({ id := 2, name := "Receipt" } : Entity) ∈
        [({ id := 1, name := "Invoice" } : Entity),
         { id := 2, name := "Receipt" }] ∧
      ({ id := 2, name := "Receipt" } : Entity).id = 2 ∧ (2 : Nat) ≠ 0) ∧
    (mapGet (buildFromListing [{ id := 1, name := "Invoice" },
        { id := 2, name := "Receipt" }]) 2).isSome :=
  ⟨(c8_nonempty_listing_replaces_mapping
      { tags := [(9, { id := 9, name := "Old" })] } [] _).1 (by decide),
   (c8_nonempty_listing_replaces_mapping CachedMetadata.empty [] _).2.2.1
      2 { id := 2, name := "Receipt" } (by decide),
   (c8_nonempty_listing_replaces_mapping CachedMetadata.empty [] _).2.2.2.1
      { id := 2, name := "Receipt" } (by decide) (by decide)⟩

/-! ### Claim C9 -/

/-- Claim C9, counterexample: after a FAILED `initialize()` (correspondent
fetch fails) whose tag fetch succeeded with a non-empty listing, a tag name
lookup returns a hit, not "not found" — the failed run does not leave the
lookups in the uninitialized ("not found / empty") state the claim
describes. -/
theorem c9_counterexample_lookup_hit_after_failed_initialize :
    fetchOk (initializeCache CachedMetadata.empty
        (.ok [{ id := 4, name := "Receipt" }]) (.error "timeout")
        (.ok []) 7).2 = false ∧
    getTagIDByName (initializeCache CachedMetadata.empty
        (.ok [{ id := 4, name := "Receipt" }]) (.error "timeout")
        (.ok []) 7).1 "Receipt" = some 4 := by
  decide

/-- Claim C9 as amended: every lookup is a total function (never throws),
and against the never-initialized cache the name lookups return "not
found" and the ID lookups return empty/undefined results
(`getTagsByIds` returns `undefined` for an empty input and the empty list
otherwise).  After a failed `initialize()`, lookups still never throw, but
a kind whose own fetch succeeded non-empty may already resolve names (see
the counterexample). -/
theorem c9_lookups_on_never_initialized_cache
    (name : String) (ids : List Nat) (id : Nat) :
    getTagIDByName CachedMetadata.empty name = none ∧
    getCorrespondentIDByName CachedMetadata.empty name = none ∧
    getDocumentTypeIDByName CachedMetadata.empty name = none ∧
    getTagsByIds CachedMetadata.empty ids =
      (if ids.isEmpty then none else some []) ∧
    getCorrespondentById CachedMetadata.empty id = none ∧
    getDocumentTypeById CachedMetadata.empty id = none := by
  have hnil : ∀ l : List Nat,
      l.filterMap (fun _ => (none : Option Entity)) = [] := by
    intro l; simp
  refine ⟨?_, ?_, ?_, ?_, ?_, ?_⟩ <;>
    simp [getTagIDByName, getCorrespondentIDByName, getDocumentTypeIDByName,
      getIDByName, getTagsByIds, getCorrespondentById, getDocumentTypeById,
      mapGet, CachedMetadata.empty, hnil]

/-! ### Claim C1 -/

/-- Claim C1: with a cache resolving correspondent name "ACME" to id 1 (and
document-type name "Bills" to id 3), an `edit_documents` call with method
`set_correspondent` (resp. `set_document_type`) resolves the name
successfully, yet the outgoing bulk-edit body carries the human-readable
NAME STRING in its `correspondent` (resp. `document_type`) parameter — not
the resolved numeric id the claim (and the remote API) requires.  The
resolved id is computed only as an existence check and never used. -/
theorem c1_bulk_edit_sends_name_string_not_resolved_id :
    getCorrespondentIDByName
        { correspondents := [(1, { id := 1, name := "ACME" })] } "ACME" =
      some 1 ∧
    (bulkEditDocuments
        { correspondents := [(1, { id := 1, name := "ACME" })] }
        { documentIds := [42], method := .set_correspondent,
          correspondent := some "ACME" }
        (.ok "OK")).1 =
      some { documents := [42], method := .set_correspondent,
             parameters := { correspondent := some (.str "ACME") } } ∧
    some (ParamValue.str "ACME") ≠ some (ParamValue.num 1) ∧
    getDocumentTypeIDByName
        { documentTypes := [(3, { id := 3, name := "Bills" })] } "Bills" =
      some 3 ∧
    (bulkEditDocuments
        { documentTypes := [(3, { id := 3, name := "Bills" })] }
        { documentIds := [7], method := .set_document_type,
          document_type := some "Bills" }
        (.ok "OK")).1 =
      some { documents := [7], method := .set_document_type,
             parameters := { document_type := some (.str "Bills") } } ∧
    some (ParamValue.str "Bills") ≠ some (ParamValue.num 3) := by
  decide

/-! ### Claim C3 -/

/-- Claim C3: an `edit_documents` call with method `set_correspondent` whose
supplied correspondent name matches no cached entity under normalisation
returns an error-flagged envelope with the entity-not-found message and
issues no bulk-edit POST (the issued-request component is `none`); likewise
for `set_document_type` with an unresolvable document-type name. -/
theorem c3_unresolvable_write_name_fails_without_request
    (c : CachedMetadata) (args : BulkEditArgs)
    (post : Except String String) (name : String) :
    (args.method = .set_correspondent → args.correspondent = some name →
      (∀ p ∈ c.correspondents, normName p.2.name ≠ normName name) →
      bulkEditDocuments c args post =
        (none, { isError := true
                 text := "Correspondent \"" ++ name ++ "\" not found." })) ∧
    (args.method = .set_document_type → args.document_type = some name →
      (∀ p ∈ c.documentTypes, normName p.2.name ≠ normName name) →
      bulkEditDocuments c args post =
        (none, { isError := true
                 text := "Document Type \"" ++ name ++ "\" not found." })) := by
  constructor
  · intro hm ha hno
    have hlook : getCorrespondentIDByName c name = none :=
      getIDByName_eq_none c.correspondents name hno
    simp [bulkEditDocuments, hm, ha, getCorrespondentIDByName] at hlook ⊢
    simp [hlook]
  · intro hm ha hno
    have hlook : getDocumentTypeIDByName c name = none :=
      getIDByName_eq_none c.documentTypes name hno
    simp [bulkEditDocuments, hm, ha, getDocumentTypeIDByName] at hlook ⊢
    simp [hlook]

/-- Witness for C3: a cache holding only correspondent "ACME" cannot resolve
"Zeta"; the call errors and no POST is issued. -/
theorem c3_unresolvable_write_name_fails_without_request_witness :
    bulkEditDocuments { correspondents := [(1, { id := 1, name := "ACME" })] }
        { documentIds := [42], method := .set_correspondent,
          correspondent := some "Zeta" }
        (.ok "OK") =
      (none, { isError := true
               text := "Correspondent \"Zeta\" not found." }) :=
  (c3_unresolvable_write_name_fails_without_request
      { correspondents := [(1, { id := 1, name := "ACME" })] }
      { documentIds := [42], method := .set_correspondent,
        correspondent := some "Zeta" }
      (.ok "OK") "Zeta").1 rfl rfl (by decide)

/-! ### Claim C4 -/

/-- Claim C4: for every `edit_documents` call with method `modify_tags`, the
outgoing body is always posted, with `add_tags`/`remove_tags` the
`filterMap` of the tag-name resolution over the supplied lists — names
resolving in the tag cache contribute their ids, unresolvable names are
silently dropped, and an absent list becomes the empty list.  In
particular, with cache `{1: Invoice, 2: Receipt}`, `add_tags ["Receipt"]`
and `remove_tags ["Unknown"]` translate to `[2]` and `[]`. -/
theorem c4_modify_tags_resolves_and_silently_drops
    (c : CachedMetadata) (docIds : List Nat) (corr dt : Option String)
    (addNames removeNames : Option (List String))
    (post : Except String String) :
    (bulkEditDocuments c
        { documentIds := docIds, method := .modify_tags,
          correspondent := corr, document_type := dt,
          add_tags := addNames, remove_tags := removeNames } post).1 =
      some { documents := docIds, method := .modify_tags,
             parameters :=
              { add_tags :=
                  some ((addNames.getD []).filterMap (getTagIDByName c))
                remove_tags :=
                  some ((removeNames.getD []).filterMap
                    (getTagIDByName c)) } } ∧
    (bulkEditDocuments
        { tags := [(1, { id := 1, name := "Invoice" }),
                   (2, { id := 2, name := "Receipt" })] }
        { documentIds := [42], method := .modify_tags,
          add_tags := some ["Receipt"], remove_tags := some ["Unknown"] }
        (.ok "OK")).1 =
      some { documents := [42], method := .modify_tags,
             parameters := { add_tags := some [2],
                             remove_tags := some [] } } := by
  refine ⟨?_, by decide⟩
  cases addNames <;> cases removeNames <;> cases post <;>
    simp [bulkEditDocuments]

/-! ### Claim C10 -/

/-- Claim C10, counterexample: a `get_documents` call whose `id` is `0` does
NOT pass schema validation — `id` is declared `z.int().min(1)`, so `0` is
rejected as a validation error, contrary to the claim's "schema validation
succeeds because the key is present". -/
theorem c10_counterexample_id_zero_rejected_by_schema :
    fetchOk (getDocumentSchemaCheck { id := some 0 }) = false := by
  decide

/-- Claim C10 as amended: for a `get_documents` call whose only supplied
filter argument is an empty string (e.g. `title: ""`), schema validation
succeeds because the key is present, yet no corresponding filter parameter
is added to the outgoing remote request, which carries only `page_size`
(the supplied limit, default 10); an `id` of `0`, by contrast, is rejected
by schema validation (`z.int().min(1)`), not passed through. -/
theorem c10_empty_string_filter_validates_but_adds_no_filter
    (lim : Option Nat) (c : CachedMetadata)
    (fetch : Except String (List Document)) :
    getDocumentSchemaCheck { title := some "", limit := lim } =
      .ok { title := some "", limit := lim } ∧
    (getDocumentAllParams c { title := some "", limit := lim } fetch).1 =
      { page_size := lim.getD 10 } ∧
    fetchOk (getDocumentSchemaCheck { id := some 0 }) = false := by
  refine ⟨?_, ?_, by decide⟩
  · simp [getDocumentSchemaCheck]
  · cases fetch <;>
      simp [getDocumentAllParams, getDocumentParams, strTruthy, natTruthy]

/-! ### Claim C6 -/

/-- Claim C6: a `get_documents` tool call whose argument object contains
none of the eight recognized filter keys (whatever its `limit` and the
other tools' argument bags) is rejected by the `.refine` rule as a
validation error thrown by `schema.parse`, and the dispatch issues no HTTP
request at all. -/
theorem c6_get_documents_without_filter_rejected_before_io
    (c : CachedMetadata) (lim : Option Nat) (be : BulkEditArgs)
    (nm : String) (col : Option String) (remote : RemoteOutcomes) :
    callToolHandler c "get_documents"
      { getDocs := { limit := lim }, bulkEdit := be,
        createName := nm, createColor := col } remote =
      { cache := c, issued := []
        outcome := .zodErr getDocumentSchemaRefineMsg } := by
  simp [callToolHandler, getDocumentSchemaCheck]

/-! ### Claim C7 -/

/-- Claim C7: dispatching any tool-call request whose name is not in the
declared tool set hits the `default` switch branch: it returns the distinct
"unknown tool" JSON-RPC error object — a different constructor from a
returned envelope (remote-call errors), a thrown `ZodError` (validation
errors) and any other thrown exception, so it is distinguishable from all
of them and never an uncaught throw — touching neither the cache nor the
network. -/
theorem c7_unknown_tool_distinct_error_never_throws
    (c : CachedMetadata) (name : String) (args : RequestArgs)
    (remote : RemoteOutcomes) (h : name ∉ declaredToolNames) :
    callToolHandler c name args remote =
      { cache := c, issued := []
        outcome := .jsonrpcErr (-32602) "Unknown tool: invalid_tool_name" } ∧
    (∀ e, (callToolHandler c name args remote).outcome ≠ .env e) ∧
    (∀ m, (callToolHandler c name args remote).outcome ≠ .zodErr m) ∧
    (∀ m, (callToolHandler c name args remote).outcome ≠ .thrown m) := by
  simp only [declaredToolNames, List.mem_cons, List.mem_singleton,
    not_or] at h
  obtain ⟨h₁, h₂, h₃, h₄, h₅, h₆, h₇, h₈⟩ := h
  have hres : callToolHandler c name args remote =
      { cache := c, issued := []
        outcome := .jsonrpcErr (-32602) "Unknown tool: invalid_tool_name" } := by
    simp [callToolHandler, h₁, h₂, h₃, h₄, h₅, h₆, h₇, h₈]
  refine ⟨hres, ?_, ?_, ?_⟩ <;> intro x <;> rw [hres] <;> simp

/-- Witness for C7 at the concrete undeclared name "summarize_documents". -/
theorem c7_unknown_tool_distinct_error_never_throws_witness :
    callToolHandler CachedMetadata.empty "summarize_documents" {} {} =
      { cache := CachedMetadata.empty, issued := []
        outcome := .jsonrpcErr (-32602) "Unknown tool: invalid_tool_name" } :=
  (c7_unknown_tool_distinct_error_never_throws
      CachedMetadata.empty "summarize_documents" {} {} (by decide)).1

/-! ### Claim C5 -/

/-- Claim C5, counterexample: a `create_tag` call whose remote create
succeeds (`Tag created successfully: ...` envelope, not error-flagged) but
whose subsequent tag-cache refresh fetch fails ends with the refresh error
thrown out of the handler — the successful create result is NOT returned
to the caller, contrary to the claim that the refresh failure is only
logged and never surfaced. -/
theorem c5_counterexample_refresh_failure_discards_create_result :
    createTag "urgent" none (.ok { id := 5, name := "urgent" }) =
      { isError := false
        text := "Tag created successfully: Tag ID: 5, Name: urgent, Color: undefined, Document with this Tag: 0" } ∧
    callToolHandler CachedMetadata.empty "create_tag"
        { createName := "urgent" }
        { createTagPost := .ok { id := 5, name := "urgent" }
          refreshListing := .error "network error" } =
      { cache := CachedMetadata.empty
        issued := [.postCreateTag "urgent" none, .getTags]
        outcome := .thrown "network error" } := by
  decide

/-- Claim C5 as amended: when the post-create single-kind cache refresh
fails, the refresh error (logged and rethrown inside the load) propagates
out of the tool handler, so the call does NOT return the create result —
for all three create tools; the issued requests are exactly the create
POST and the refresh GET (the create is not rolled back).  When the
refresh succeeds, the call returns the create result envelope (whatever
the create outcome was). -/
theorem c5_refresh_failure_propagates_out_of_create_calls
    (c : CachedMetadata) (args : RequestArgs)
    (remoteErr remoteOk : RemoteOutcomes) (e : String) (l : List Entity)
    (hcol : args.createColor = none)
    (he : remoteErr.refreshListing = .error e)
    (hl : remoteOk.refreshListing = .ok l) :
    (callToolHandler c "create_tag" args remoteErr).outcome = .thrown e ∧
    (callToolHandler c "create_tag" args remoteErr).issued =
      [.postCreateTag args.createName none, .getTags] ∧
    (callToolHandler c "create_correspondent" args remoteErr).outcome =
      .thrown e ∧
    (callToolHandler c "create_document_type" args remoteErr).outcome =
      .thrown e ∧
    (callToolHandler c "create_tag" args remoteOk).outcome =
      .env (createTag args.createName none remoteOk.createTagPost) ∧
    (callToolHandler c "create_correspondent" args remoteOk).outcome =
      .env (createCorrespondent args.createName
        remoteOk.createCorrespondentPost) ∧
    (callToolHandler c "create_document_type" args remoteOk).outcome =
      .env (createDocumentType args.createName
        remoteOk.createDocumentTypePost) := by
  refine ⟨?_, ?_, ?_, ?_, ?_, ?_, ?_⟩ <;>
    simp [callToolHandler, createTagSchemaCheck, hcol, he, hl,
      refreshTags, refreshCorrespondents, refreshDocumentTypes, loadKind]

/-- Witness for C5 (amended) with concrete inputs: refresh failing with
"boom" versus refresh succeeding on the empty listing. -/
theorem c5_refresh_failure_propagates_out_of_create_calls_witness :
    (callToolHandler CachedMetadata.empty "create_tag" {}
        { refreshListing := .error "boom" }).outcome = .thrown "boom" :=
  (c5_refresh_failure_propagates_out_of_create_calls
      CachedMetadata.empty {} { refreshListing := .error "boom" } {}
      "boom" [] rfl rfl rfl).1

end PaperlessMCP
